import Mathlib

/-!
Verification of the jira_submitter plugin (Houdini JIRA ticket submitter).

Shallow embedding of the Python sources:
  Creator.py, HipFileUtils.py, HouJiraReportDialog.py, HoudiniTicket.py, TicketInfo.py

Python exceptions are modelled with `Except`; host-application calls
(hou.*, pwd.getpwnam, subprocess, hscript) are modelled as explicit oracle
arguments; machine state touched by the code (the current hip-file name,
pane-tab liveness, the shared temp-directory listing) is passed explicitly.
The float constants 2.0 and 7200.0 and their running sums are exactly
representable, so the timing arithmetic is modelled over natural-number
seconds.
-/

namespace JiraSubmitter

/-- Python exception classes that the embedded code raises or catches. -/
inductive PyErr
  | opFailed (msg : String)          -- hou.OperationFailed
  | calledProcessError               -- subprocess.CalledProcessError
  | osError (msg : String)           -- OSError
  | keyError                         -- KeyError
  deriving DecidableEq

/-- Python str.endswith, over the underlying character sequences. -/
def str_endswith (s suffix : String) : Bool :=
  suffix.data.isSuffixOf s.data

/-- Python str.strip (no argument): drop whitespace at both ends, over the
underlying character sequences. -/
def str_strip (s : String) : String :=
  String.mk (((s.data.dropWhile Char.isWhitespace).reverse.dropWhile Char.isWhitespace).reverse)

/-- Helper for py_split_char: walk the characters accumulating the current
field, emitting a field at each separator. -/
def split_char_aux (c : Char) : List Char → List Char → List String
  | [], cur => [String.mk cur.reverse]
  | x :: xs, cur =>
    if x = c then String.mk cur.reverse :: split_char_aux c xs []
    else split_char_aux c xs (x :: cur)

/-- Python str.split(sep) / re.split(sep) for a one-character separator (the
code only splits on ",", ":" and "/"): splitting the empty string gives [""],
and a trailing separator yields a trailing empty field. -/
def py_split_char (c : Char) (s : String) : List String :=
  split_char_aux c s.data []

namespace HipFileUtils

/-- Pane-tab operations performed by HipFileUtils.kill_pane_tab. -/
inductive PaneAction
  | setIsCurrentTab
  | closeTab
  deriving DecidableEq

/-- The message of the hou.OperationFailed raised by kill_pane_tab on an
invalid queue argument. -/
def kill_pane_tab_message : String :=
  "closing pane tab might be dangerous since operation is not threaded properly, houdini might crash"

/-- HipFileUtils.py, kill_pane_tab(queue, pane_tab): raise hou.OperationFailed
when the queue argument is falsy; otherwise, when the pane-tab handle is live,
make it the current tab and close it (no action when the handle is gone).
`queue` is the truthiness of the queue argument, `pane_tab` the truthiness of
the pane-tab handle. -/
def kill_pane_tab (queue : Bool) (pane_tab : Bool) : Except PyErr (List PaneAction) :=
  if queue = false then .error (.opFailed kill_pane_tab_message)
  else if pane_tab then .ok [.setIsCurrentTab, .closeTab]
  else .ok []

/-- HipFileUtils.py: DN_TRANSFER_MAP, site-to-destination-sites mapping. -/
def DN_TRANSFER_MAP : List (String × String) :=
  [("vancouver", "london,"), ("mumbai", "london,vancouver"), ("london", "vancouver,")]

/-- HipFileUtils.py: DN_REMOTE_HOST_MAP, site-to-remote-host mapping. -/
def DN_REMOTE_HOST_MAP : List (String × String) :=
  [("london", "nomachine2"), ("vancouver", "vannomachine2"), ("mumbai", "mumnomachine2")]

/-- Python dict membership test plus indexing, for the two static maps
(keys are unique in both). -/
def lookupMap (m : List (String × String)) (k : String) : Option String :=
  (m.find? (fun p => p.1 == k)).map (fun p => p.2)

/-- os.path.dirname, for the slash-separated paths this code builds. -/
def os_path_dirname (p : String) : String :=
  String.intercalate "/" (py_split_char '/' p).dropLast

/-- HipFileUtils.py, rsync_hip_file(dest_site, path_to_file): look up the
remote host (silent return when the site is unknown), fire off the ssh mkdir
(subprocess.Popen is fire-and-forget: it raises nothing that the code sees),
run the rsync through hou.hscript and raise hou.OperationFailed when the
first element of the returned pair is non-empty.  The except clause catches
only subprocess.CalledProcessError, which nothing inside the try raises, so
the hou.OperationFailed propagates to the caller.  `hscript` maps the command
string to the (output, error) pair hou.hscript returns; `user` is
os.environ["USER"].  (Python formats the whole pair into the message; the
model joins its two parts.) -/
def rsync_hip_file (hscript : String → String × String) (user : String)
    (dest_site path_to_file : String) : Except PyErr Unit :=
  match lookupMap DN_REMOTE_HOST_MAP dest_site with
  | none => .ok ()
  | some host_name =>
    let dest_host := user ++ "@" ++ host_name
    let dest_dir := dest_host ++ ":" ++ os_path_dirname path_to_file
    let sync_paths := path_to_file ++ " " ++ dest_dir
    let rsync_command := "rsync --progress -avvux -ii --keep-dirlinks " ++ sync_paths
    let ret := hscript ("unix " ++ rsync_command)
    let body : Except PyErr Unit :=
      if ret.1 ≠ "" then
        .error (.opFailed ("rsync returned error: (" ++ ret.1 ++ ", " ++ ret.2 ++ ")"))
      else .ok ()
    match body with
    | .error .calledProcessError => .ok ()    -- except subprocess.CalledProcessError: pass
    | r => r

/-- HipFileUtils.py, transfer_hip(new_file_path): look up the destination
sites of the current site and rsync to each non-empty one; an exception from
rsync_hip_file aborts the loop and propagates (there is no try around it). -/
def transfer_hip (hscript : String → String × String) (user site_name new_file_path : String) :
    Except PyErr Unit :=
  match lookupMap DN_TRANSFER_MAP site_name with
  | none => .ok ()
  | some dests =>
    (py_split_char ',' dests).foldlM
      (fun _ dest_site =>
        if dest_site ≠ "" then rsync_hip_file hscript user (str_strip dest_site) new_file_path
        else .ok ())
      ()

/-- State of the Houdini session observed by HipFileUtils.save_hip: the
current hip-file name (hou.hipFile). -/
structure HipSession where
  name : String
  deriving DecidableEq

/-- hou.hipFile.setName(path). -/
def set_name (path : String) (s : HipSession) : HipSession :=
  { s with name := path }

/-- HipFileUtils.py, save_hip, the try/except/else/finally around
hou.hipFile.save(save_file_path).  `valid_path` is the path returned by
validate_hip_path_or_force_save and `save_file_path` the timestamped backup
path, both computed before the save call; `saveResult` is the outcome of
hou.hipFile.save, which on success renames the current session to the saved
path.  hou.OperationFailed is caught (success = False); any other exception
propagates after the finally clause runs.  The finally clause always calls
hou.hipFile.setName(valid_path).  Returns the (success, save_file_path) pair
and the final session state. -/
def save_hip (valid_path save_file_path : String) (saveResult : Except PyErr Unit)
    (s : HipSession) : Except PyErr (Bool × String) × HipSession :=
  let step : Except PyErr Bool × HipSession :=
    match saveResult with
    | .ok _ => (.ok true, { s with name := save_file_path })
    | .error (.opFailed _) => (.ok false, s)
    | .error e => (.error e, s)
  (step.1.map (fun b => (b, save_file_path)), set_name valid_path step.2)

end HipFileUtils

namespace Creator

/-- Creator.py: DN_JIRA_SUBMIT_PANE_SLEEP_INC = 2.0 (seconds). -/
def DN_JIRA_SUBMIT_PANE_SLEEP_INC : Nat := 2

/-- Creator.py: DN_JIRA_SUBMIT_PANE_SLEEP_MAX = 7200.0 (seconds). -/
def DN_JIRA_SUBMIT_PANE_SLEEP_MAX : Nat := 7200

/-- Creator.py, find_and_remove_tmp_file:
tmp_file_suffix = "_hou_jira_submit_pane_tab_{0}_{1}".format(pane_tab_name, hou.hipFile.basename()).
HouJiraReportDialog.create_issue builds the identical format string when it
creates the marker file. -/
def tmp_file_suffix (pane_tab_name hip_basename : String) : String :=
  "_hou_jira_submit_pane_tab_" ++ pane_tab_name ++ "_" ++ hip_basename

/-- Creator.py, find_and_remove_tmp_file: scan os.listdir(tempfile.tempdir)
for the first file whose name ends with the suffix, os.remove it and return
True; return False when no file matches.  `files` is the directory listing;
`removeOk f` tells whether os.remove succeeds on `f` (False = OSError raised,
which the source does not catch, so it propagates). -/
def find_and_remove_tmp_file (removeOk : String → Bool) (files : List String)
    (pane_tab_name hip_basename : String) : Except PyErr Bool :=
  let suffix := tmp_file_suffix pane_tab_name hip_basename
  match files.find? (fun f => str_endswith f suffix) with
  | some f => if removeOk f then .ok true else .error (.osError ("cannot remove " ++ f))
  | none => .ok false

/-- Environment of one iteration of the wait_jira_submit loop:
the result of the marker scan at the loop-condition check, the pane-tab
liveness hou.ui.findPaneTab reports after the sleep, the answer to the
timeout prompt when it is shown (true = "Yes", button index 0), and the
pane-tab liveness reported by the repeated findPaneTab after a Yes answer. -/
structure TickInput where
  marker : Except PyErr Bool
  paneAfterSleep : Bool
  promptAnswer : Bool
  paneAfterPrompt : Bool

/-- How the wait loop ended. -/
inductive ExitReason
  | markerFound        -- marker detected and removed
  | paneGone           -- pane tab no longer resolves
  | promptDeclined     -- user answered No at the timeout prompt (break)
  | inputsExhausted    -- the supplied input trace ran out (loop still going)
  deriving DecidableEq

/-- Observable outcome of the wait loop: the result (an error is an uncaught
exception escaping the loop), the sleep_time values (in seconds) at which the
timeout prompt was shown, and the final value of the _pane_tab variable. -/
structure LoopState where
  result : Except PyErr ExitReason
  prompts : List Nat
  finalPane : Bool

/-- Creator.py, wait_jira_submit, the while loop:

  while not find_and_remove_tmp_file(name) and _pane_tab:
      sleep(INC); sleep_time += INC
      (status message)
      _pane_tab = hou.ui.findPaneTab(name)
      if sleep_time > MAX:
          if displayMessage(..., buttons=("Yes", "No")) == 0:
              sleep_time = 0.0
              _pane_tab = hou.ui.findPaneTab(name)
          else:
              break

One TickInput is consumed per condition-check/iteration; `sleep_time` is the
accumulated wait in seconds and `pane` the current truthiness of _pane_tab. -/
def waitLoop : List TickInput → Nat → Bool → LoopState
  | [], _, pane => ⟨.ok .inputsExhausted, [], pane⟩
  | i :: rest, sleep_time, pane =>
    match i.marker with
    | .error e => ⟨.error e, [], pane⟩
    | .ok true => ⟨.ok .markerFound, [], pane⟩
    | .ok false =>
      if pane = false then ⟨.ok .paneGone, [], pane⟩
      else
        let st := sleep_time + DN_JIRA_SUBMIT_PANE_SLEEP_INC
        let pane1 := i.paneAfterSleep
        if DN_JIRA_SUBMIT_PANE_SLEEP_MAX < st then
          if i.promptAnswer then
            let r := waitLoop rest 0 i.paneAfterPrompt
            ⟨r.result, st :: r.prompts, r.finalPane⟩
          else ⟨.ok .promptDeclined, [st], pane1⟩
        else waitLoop rest st pane1

/-- Creator.py, wait_jira_submit: when the initial pane tab is falsy nothing
runs; otherwise run the loop and, when the loop exits normally, close the
pane with kill_pane_tab(queue, _pane_tab).  An exception escaping the loop
kills the thread before the close step (second component none); when the
input trace is exhausted the loop is conceptually still running, so no close
is recorded either. -/
def wait_jira_submit (queue : Bool) (pane_tab : Bool) (inputs : List TickInput) :
    Option LoopState × Option (Except PyErr (List HipFileUtils.PaneAction)) :=
  if pane_tab = false then (none, none)
  else
    let L := waitLoop inputs 0 true
    match L.result with
    | .error _ => (some L, none)
    | .ok .inputsExhausted => (some L, none)
    | .ok _ => (some L, some (HipFileUtils.kill_pane_tab queue L.finalPane))

end Creator

namespace HouJiraReportDialog

/-- HouJiraReportDialog.py: DN_TICKET_TITLE_MESSAGE. -/
def DN_TICKET_TITLE_MESSAGE : String := "< ISSUE SUMMARY REQUIRED >"

/-- HouJiraReportDialog.py: DN_TICKET_DESCRIPTION_MESSAGE (the source splits
the literal over two lines; this is their concatenation). -/
def DN_TICKET_DESCRIPTION_MESSAGE : String :=
  "< ISSUE DESCRIPTION REQUIRED - ** KNOWN BUG w RMB menu (dont use), USE Ctl-C Ctl-V INSTEAD ** >"

/-- The ticket-draft fields _createTicket reads. -/
structure TicketState where
  title : String
  comment : String
  reporter : String
  deriving DecidableEq

/-- HouJiraReportDialog._createTicket, the validation step: None when the
draft passes, otherwise the message displayed/raised (empty and placeholder
title checked first, then empty and placeholder comment). -/
def validation_message (t : TicketState) : Option String :=
  if t.title = "" ∨ t.title = DN_TICKET_TITLE_MESSAGE then
    some "Please enter a valid issue summary"
  else if t.comment = "" ∨ t.comment = DN_TICKET_DESCRIPTION_MESSAGE then
    some "Please enter a valid issue description"
  else none

/-- UI and filesystem effects of _createTicket / reject / create_issue. -/
inductive Effect
  | displayMessage (msg : String)
  | setCurrentTab (name : String)
  | closeDialog
  | spawnKillPane (name : String)
  | addComment (issueKey text : String)
  | openUrl (url : String)
  | createMarker (suffix : String)
  deriving DecidableEq

/-- HouJiraReportDialog.reject: return immediately when there is no pane tab;
otherwise make the parent tab current, reject (close) the dialog, and in UI
mode spawn the kill_pane_tab thread on it. -/
def reject_effects (is_ui : Bool) (pane_tab : Option String) : List Effect :=
  match pane_tab with
  | none => []
  | some nm => [.setCurrentTab nm, .closeDialog] ++ (if is_ui then [.spawnKillPane nm] else [])

/-- Dialog configuration read by _createTicket. -/
structure DialogCtx where
  is_ui : Bool
  pane_tab : Option String      -- pane-tab name when the handle is set
  save_hip_flag : Bool          -- self.save_hip
  toggle_checked : Bool         -- save_hip_toggle is set and isChecked()
  final_jira_description : String
  jira_server : String

/-- External collaborators consulted by _createTicket / create_issue. -/
structure DialogOracles where
  hscript : String → String × String   -- hou.hscript
  user : String                        -- os.environ["USER"]
  site_name : String                   -- dnsitedata.local_site().name
  save_result : Bool × String          -- result of HipFileUtils.save_hip()
  hip_env : String                     -- hou.getenv("HIP")
  re_sub : String → String → String    -- re.sub(pattern, hip_save_string, description)
  issue : Option String                -- key of the issue the ticket creator returns
  hip_basename : String                -- hou.hipFile.basename()

/-- Observable outcome of one _createTicket call. -/
structure CreateTicketRun where
  result : Except PyErr (Option String)   -- the issue create_issue returns; ok none = aborted/empty
  effects : List Effect
  title : String                          -- final value of the draft title field

/-- HouJiraReportDialog._createTicket (with create_issue inlined), for a
draft `t` as it stands after the UI-mode _updateTicket call:

1. validation: on an empty/placeholder title or comment, display the message
   and reject the dialog in UI mode (then return), or raise
   hou.OperationFailed outside UI mode — no issue is created;
2. prepend the reporter to the title;
3. when saving is requested and save_hip reported success with a non-empty
   path, call transfer_hip — an exception from it propagates out (there is no
   try around the call) and nothing further runs;
4. rewrite the description and create the issue: add the final description as
   a comment, open the browser in UI mode, and in UI mode with a pane tab
   close the dialog and create the marker file carrying the pane-tab/document
   suffix. -/
def _createTicket (ctx : DialogCtx) (t : TicketState) (o : DialogOracles) : CreateTicketRun :=
  match validation_message t with
  | some msg =>
    if ctx.is_ui then
      { result := .ok none
        effects := .displayMessage msg :: reject_effects ctx.is_ui ctx.pane_tab
        title := t.title }
    else
      { result := .error (.opFailed msg), effects := [], title := t.title }
  | none =>
    let title1 := "[" ++ t.reporter ++ "] " ++ t.title
    let hip0 := "No HIP file supplied. Working Dir is: " ++ o.hip_env ++ "\n"
    let hip_string : Except PyErr String :=
      if ctx.save_hip_flag ∨ (ctx.is_ui ∧ ctx.toggle_checked) then
        let saved := o.save_result.1
        let submission := o.save_result.2
        if saved ∧ submission ≠ "" then
          match HipFileUtils.transfer_hip o.hscript o.user o.site_name submission with
          | .error e => .error e
          | .ok _ => .ok ("Submission HIP location:\n" ++ submission ++ "\n\n")
        else .ok hip0
      else .ok hip0
    match hip_string with
    | .error e => { result := .error e, effects := [], title := title1 }
    | .ok hs =>
      let desc := o.re_sub hs ctx.final_jira_description
      let issueFx : List Effect :=
        match o.issue with
        | none => []
        | some key =>
          (if desc ≠ "" then [.addComment key desc] else [])
          ++ (if ctx.is_ui then [.openUrl ("http://" ++ ctx.jira_server ++ "/browse/" ++ key)] else [])
      let cleanupFx : List Effect :=
        match ctx.pane_tab with
        | some nm =>
          if ctx.is_ui then
            [.closeDialog, .createMarker (Creator.tmp_file_suffix nm o.hip_basename)]
          else []
        | none => []
      { result := .ok o.issue, effects := issueFx ++ cleanupFx, title := title1 }

end HouJiraReportDialog

namespace HoudiniTicket

/-- HoudiniTicket.py: the AutoInfo namedtuple, fields in declaration order
(namedtuple._asdict iterates in exactly this order). -/
structure AutoInfo where
  location : String
  shot : String
  submitteditem : String
  opdefinitiontype : String
  opdefinitionpath : String
  orighippath : String
  houdiniversion : String
  codeline1 : String
  houdinipath : String
  curtools : String
  bobpaths : String
  codeline2 : String

/-- The field values of the AutoInfo namedtuple in _asdict iteration order. -/
def autoInfoFields (a : AutoInfo) : List String :=
  [a.location, a.shot, a.submitteditem, a.opdefinitiontype, a.opdefinitionpath,
   a.orighippath, a.houdiniversion, a.codeline1, a.houdinipath, a.curtools,
   a.bobpaths, a.codeline2]

/-- Python "-" * 79. -/
def dashes79 : String := String.mk (List.replicate 79 (Char.ofNat 45))

/-- The loop body of _build_final_description: append a non-empty (truthy)
value after a newline, skip an empty (falsy) one. -/
def description_append (acc v : String) : String :=
  if v ≠ "" then acc ++ "\n" ++ v else acc

/-- HoudiniTicket._build_final_description: append a separator, the header
line and another separator to the user description, then append every
non-empty AutoInfo value, each preceded by a newline, in iteration order. -/
def _build_final_description (init : String) (a : AutoInfo) : String :=
  let d := init ++ "\n" ++ dashes79
  let d := d ++ "\nAUTO GENERATED INFO FOLLOWS"
  let d := d ++ "\n" ++ dashes79
  (autoInfoFields a).foldl description_append d

/-- The section order claimed by the specification (location, shot, submitted
item, item type, item path, working-file path, application version,
environment tool listing, remote-package listing), written from the spec to
be compared with the order the source iterates in. -/
def spec_claimed_section_order (a : AutoInfo) : List String :=
  [a.location, a.shot, a.submitteditem, a.opdefinitiontype, a.opdefinitionpath,
   a.orighippath, a.houdiniversion, a.curtools, a.bobpaths]

/-- One line of a houdiniJiraWatchers.dat file as the scanning regex parses
it: the login column and the raw (colon-separated) site-restriction column. -/
structure WatcherLine where
  login : String
  sites : String
  deriving DecidableEq

/-- HoudiniTicket._search_for_watchers, the site check:
sites = re.split(":", sitesStr); admit when not sites[0] or site_name in sites. -/
def admit_sites (site_name sitesStr : String) : Bool :=
  let sites := py_split_char ':' sitesStr
  (sites.headD "" == "") || sites.contains site_name

/-- pwd.getpwnam modelled through the set of known system accounts: KeyError
for an unknown login. -/
def getpwnam_exc (known : String → Bool) (u : String) : Except PyErr Unit :=
  if known u then .ok () else .error .keyError

/-- HoudiniTicket._search_for_watchers, the per-line body, with the
try/except KeyError around pwd.getpwnam made explicit: an unparsable line
(regex search returned None) was already dropped by the comprehension; an
admitted login of a known account is appended unless already present; an
unknown account is printed and skipped. -/
def process_line_exc (site_name : String) (known : String → Bool)
    (acc : List String) (pl : Option WatcherLine) : Except PyErr (List String) :=
  match pl with
  | none => .ok acc
  | some p =>
    if admit_sites site_name p.sites then
      match getpwnam_exc known p.login with
      | .ok _ => .ok (if p.login ∈ acc then acc else acc ++ [p.login])
      | .error .keyError => .ok acc          -- except KeyError: print message, skip
      | .error e => .error e
    else .ok acc

/-- The exception-free value process_line_exc always computes. -/
def process_line (site_name : String) (known : String → Bool)
    (acc : List String) (pl : Option WatcherLine) : List String :=
  match pl with
  | none => acc
  | some p =>
    if admit_sites site_name p.sites then
      if known p.login then (if p.login ∈ acc then acc else acc ++ [p.login]) else acc
    else acc

/-- HoudiniTicket._search_for_watchers over the scanned lines of one watcher
file (`lines` holds the regex result for each line), starting from the
current self._all_issues_watchers list. -/
def _search_for_watchers_exc (site_name : String) (known : String → Bool)
    (init : List String) (lines : List (Option WatcherLine)) : Except PyErr (List String) :=
  lines.foldlM (process_line_exc site_name known) init

/-- The exception-free scan. -/
def _search_for_watchers (site_name : String) (known : String → Bool)
    (init : List String) (lines : List (Option WatcherLine)) : List String :=
  lines.foldl (process_line site_name known) init

end HoudiniTicket

/-! ## Theorems -/

/-- C1 (amended): the marker-detection step of the watcher acts on the
listing (returns True after removing the first match, or propagates the
removal error) exactly when some file name ends with the suffix built from
the configured (panel name, document basename) pair, and a free-form prefix
in front of the suffix never prevents detection.  (The original claim's
further assertion, that a file carrying the suffix of a different pair is
never detected, is refuted by C1_cross_pair_detection_cex: the pair-to-suffix
map is not injective.) -/
theorem C1_marker_detection_suffix_iff (removeOk : String → Bool) (files : List String)
    (P D : String) :
    (Creator.find_and_remove_tmp_file removeOk files P D ≠ .ok false ↔
      ∃ f ∈ files, str_endswith f (Creator.tmp_file_suffix P D) = true)
  ∧ ∀ pre : String,
      str_endswith (pre ++ Creator.tmp_file_suffix P D) (Creator.tmp_file_suffix P D) = true := by
  constructor
  · unfold Creator.find_and_remove_tmp_file
    rcases h : files.find? (fun f => str_endswith f (Creator.tmp_file_suffix P D)) with _ | f
    · simp only [h]
      rw [List.find?_eq_none] at h
      simp only [ne_eq, not_true_eq_false, false_iff, not_exists]
      rintro x ⟨hx, hpx⟩
      exact absurd hpx (by simpa using h x hx)
    · simp only [h]
      have hmem : f ∈ files := List.mem_of_find?_eq_some h
      have hpred : str_endswith f (Creator.tmp_file_suffix P D) = true :=
        @List.find?_some String (fun g => str_endswith g (Creator.tmp_file_suffix P D)) f files h
      constructor
      · intro _; exact ⟨f, hmem, hpred⟩
      · intro _
        by_cases hr : removeOk f = true
        · simp [hr]
        · simp [hr]
  · intro pre
    unfold str_endswith
    rw [List.isSuffixOf_iff_suffix, String.data_append]
    exact List.suffix_append _ _

/-- C1 (counterexample): a marker file written for the pair
(panel "a", document "b_c") is detected by a watcher configured for the
different pair (panel "a_b", document "c"), because both pairs build the
same suffix string. -/
theorem C1_cross_pair_detection_cex :
    Creator.find_and_remove_tmp_file (fun _ => true)
        ["tmp_hou_jira_submit_pane_tab_a_b_c"] "a_b" "c" = .ok true
  ∧ "tmp_hou_jira_submit_pane_tab_a_b_c" = "tmp" ++ Creator.tmp_file_suffix "a" "b_c"
  ∧ (("a_b", "c") : String × String) ≠ ("a", "b_c") :=
  ⟨rfl, by decide, by decide⟩

/-- C4: kill_pane_tab invoked with a falsy queue raises hou.OperationFailed
and performs no pane action at all (in particular no close); with a valid
queue and a live handle it makes the pane current and then closes it, and
with a valid queue but a dead handle it does nothing and raises nothing. -/
theorem C4_kill_pane_tab_contract :
    (∀ pane : Bool, HipFileUtils.kill_pane_tab false pane
        = .error (.opFailed HipFileUtils.kill_pane_tab_message))
  ∧ HipFileUtils.kill_pane_tab true true = .ok [.setIsCurrentTab, .closeTab]
  ∧ HipFileUtils.kill_pane_tab true false = .ok [] := by
  refine ⟨?_, rfl, rfl⟩
  intro pane
  rfl

namespace Creator

/-- Evaluation rule of the wait loop: a removal error at the marker scan of
the loop condition escapes immediately. -/
lemma waitLoop_err (e : PyErr) (ps pa pp : Bool) (rest : List TickInput) (st : Nat)
    (pane : Bool) :
    waitLoop (⟨.error e, ps, pa, pp⟩ :: rest) st pane = ⟨.error e, [], pane⟩ := rfl

/-- Evaluation rule of the wait loop: marker found at the condition check. -/
lemma waitLoop_found (ps pa pp : Bool) (rest : List TickInput) (st : Nat) (pane : Bool) :
    waitLoop (⟨.ok true, ps, pa, pp⟩ :: rest) st pane = ⟨.ok .markerFound, [], pane⟩ := rfl

/-- Evaluation rule of the wait loop: no marker and a dead pane at the
condition check end the loop normally. -/
lemma waitLoop_gone (ps pa pp : Bool) (rest : List TickInput) (st : Nat) :
    waitLoop (⟨.ok false, ps, pa, pp⟩ :: rest) st false = ⟨.ok .paneGone, [], false⟩ := rfl

/-- Evaluation rule of the wait loop: one body iteration with a live pane. -/
lemma waitLoop_alive_unfold (ps pa pp : Bool) (rest : List TickInput) (st : Nat) :
    waitLoop (⟨.ok false, ps, pa, pp⟩ :: rest) st true =
      if 7200 < st + 2 then
        if pa = true then
          ⟨(waitLoop rest 0 pp).result, (st + 2) :: (waitLoop rest 0 pp).prompts,
           (waitLoop rest 0 pp).finalPane⟩
        else ⟨.ok .promptDeclined, [st + 2], ps⟩
      else waitLoop rest (st + 2) ps := rfl

/-- Below the ceiling the body just advances the counter and refreshes the
pane handle. -/
lemma waitLoop_step (ps pa pp : Bool) (rest : List TickInput) (st : Nat)
    (hlt : ¬ 7200 < st + 2) :
    waitLoop (⟨.ok false, ps, pa, pp⟩ :: rest) st true = waitLoop rest (st + 2) ps := by
  rw [waitLoop_alive_unfold, if_neg hlt]

/-- Past the ceiling with a Yes answer the counter resets to zero and the
pane handle is re-resolved. -/
lemma waitLoop_prompt_yes (ps pp : Bool) (rest : List TickInput) (st : Nat)
    (hlt : 7200 < st + 2) :
    waitLoop (⟨.ok false, ps, true, pp⟩ :: rest) st true =
      ⟨(waitLoop rest 0 pp).result, (st + 2) :: (waitLoop rest 0 pp).prompts,
       (waitLoop rest 0 pp).finalPane⟩ := by
  rw [waitLoop_alive_unfold, if_pos hlt, if_pos rfl]

/-- Past the ceiling with a No answer the loop breaks. -/
lemma waitLoop_prompt_no (ps pp : Bool) (rest : List TickInput) (st : Nat)
    (hlt : 7200 < st + 2) :
    waitLoop (⟨.ok false, ps, false, pp⟩ :: rest) st true =
      ⟨.ok .promptDeclined, [st + 2], ps⟩ := by
  rw [waitLoop_alive_unfold, if_pos hlt, if_neg (by simp)]

/-- Invariant: starting from an even counter value not above the ceiling,
every prompt the loop ever records is shown at exactly 7202 accumulated
seconds — the first 2-second tick past the 7200 ceiling since the last
reset. -/
lemma waitLoop_prompts_all (inputs : List TickInput) :
    ∀ (st : Nat) (pane : Bool), st ≤ 7200 → st % 2 = 0 →
      ∀ c ∈ (waitLoop inputs st pane).prompts, c = 7202 := by
  induction inputs with
  | nil =>
    intro st pane _ _ c hc
    simp [waitLoop] at hc
  | cons i rest ih =>
    intro st pane hle hmod c hc
    obtain ⟨m, ps, pa, pp⟩ := i
    rcases m with e | b
    · rw [waitLoop_err] at hc
      simp at hc
    · rcases b
      · rcases pane
        · rw [waitLoop_gone] at hc
          simp at hc
        · by_cases hcross : 7200 < st + 2
          · rcases pa
            · rw [waitLoop_prompt_no ps pp rest st hcross] at hc
              simp at hc
              omega
            · rw [waitLoop_prompt_yes ps pp rest st hcross] at hc
              simp only [List.mem_cons] at hc
              rcases hc with hc | hc
              · omega
              · exact ih 0 pp (by omega) (by omega) c hc
          · rw [waitLoop_step ps pa pp rest st hcross] at hc
            exact ih (st + 2) ps (by omega) (by omega) c hc
      · rw [waitLoop_found] at hc
        simp at hc

/-- Runs in which the marker is never seen, the pane stays alive for a while
and then stops resolving, end in the paneGone exit with no prompts, as long
as the accumulated wait stays within the ceiling. -/
lemma waitLoop_pane_vanishes (goneT nextT : TickInput) (rest : List TickInput)
    (hg : goneT.marker = .ok false) (hgp : goneT.paneAfterSleep = false)
    (hn : nextT.marker = .ok false) :
    ∀ (pre : List TickInput) (st : Nat),
      (∀ t ∈ pre, t.marker = .ok false ∧ t.paneAfterSleep = true) →
      st + 2 * (pre.length + 1) ≤ 7200 →
      waitLoop (pre ++ goneT :: nextT :: rest) st true = ⟨.ok .paneGone, [], false⟩ := by
  intro pre
  induction pre with
  | nil =>
    intro st _ hle
    obtain ⟨mg, psg, pag, ppg⟩ := goneT
    obtain ⟨mn, psn, pan, ppn⟩ := nextT
    simp only at hg hgp hn
    subst hg hgp hn
    rw [List.nil_append, waitLoop_step _ _ _ _ _ (by simpa using (by omega : ¬ 7200 < st + 2)),
      waitLoop_gone]
  | cons t ts ih =>
    intro st hpre hle
    obtain ⟨mt, pst, pat, ppt⟩ := t
    obtain ⟨hm, hp⟩ := hpre _ (List.mem_cons_self _ _)
    simp only at hm hp
    subst hm hp
    rw [List.cons_append, waitLoop_step _ _ _ _ _ (by simp at hle ⊢; omega)]
    exact ih (st + 2) (fun u hu => hpre u (List.mem_cons_of_mem _ hu)) (by simp at hle ⊢; omega)

end Creator

/-- C5: in every execution of the watcher loop, the timeout prompt is
recorded only at an accumulated wait of exactly 7202 seconds — the first
2-second poll past the 7200-second ceiling since the start or since the last
reset — so it is shown exactly once per continuous unacknowledged wait; a
Yes answer resets the elapsed counter to zero (the loop continues as a fresh
run, so a further prompt needs another full ceiling period), a No answer
exits the loop with the promptDeclined reason, and every normal loop exit
other than input exhaustion proceeds to the close step. -/
theorem C5_timeout_prompt_contract :
    (∀ (inputs : List Creator.TickInput) (c : Nat),
        c ∈ (Creator.waitLoop inputs 0 true).prompts → c = 7202)
  ∧ (∀ (ps pp : Bool) (rest : List Creator.TickInput) (st : Nat), 7200 < st + 2 →
        Creator.waitLoop (⟨.ok false, ps, true, pp⟩ :: rest) st true =
          ⟨(Creator.waitLoop rest 0 pp).result,
           (st + 2) :: (Creator.waitLoop rest 0 pp).prompts,
           (Creator.waitLoop rest 0 pp).finalPane⟩)
  ∧ (∀ (ps pp : Bool) (rest : List Creator.TickInput) (st : Nat), 7200 < st + 2 →
        Creator.waitLoop (⟨.ok false, ps, false, pp⟩ :: rest) st true =
          ⟨.ok .promptDeclined, [st + 2], ps⟩)
  ∧ (∀ (queue : Bool) (inputs : List Creator.TickInput) (r : Creator.ExitReason),
        (Creator.waitLoop inputs 0 true).result = .ok r → r ≠ .inputsExhausted →
        (Creator.wait_jira_submit queue true inputs).2
          = some (HipFileUtils.kill_pane_tab queue (Creator.waitLoop inputs 0 true).finalPane)) := by
  refine ⟨?_, ?_, ?_, ?_⟩
  · intro inputs c hc
    exact Creator.waitLoop_prompts_all inputs 0 true (by omega) (by omega) c hc
  · intro ps pp rest st hlt
    exact Creator.waitLoop_prompt_yes ps pp rest st hlt
  · intro ps pp rest st hlt
    exact Creator.waitLoop_prompt_no ps pp rest st hlt
  · intro queue inputs r h hr
    rcases r with _ | _ | _ | _
    · simp [Creator.wait_jira_submit, h]
    · simp [Creator.wait_jira_submit, h]
    · simp [Creator.wait_jira_submit, h]
    · exact absurd rfl hr

/-- C5 witness: concrete instances — a No answer at the crossing tick ends
the loop with one prompt at 7202 seconds; a marker-found exit proceeds to
the close step. -/
theorem C5_timeout_prompt_contract_witness :
    Creator.waitLoop [⟨.ok false, true, false, true⟩] 7200 true
      = ⟨.ok .promptDeclined, [7202], true⟩
  ∧ (Creator.wait_jira_submit true true [⟨.ok true, true, true, true⟩]).2
      = some (HipFileUtils.kill_pane_tab true true) := by
  refine ⟨C5_timeout_prompt_contract.2.2.1 true true [] 7200 (by omega), ?_⟩
  have h := C5_timeout_prompt_contract.2.2.2 true [⟨.ok true, true, true, true⟩]
      .markerFound rfl (by decide)
  simpa using h

/-- C6: when the marker never appears, the panel stays alive for any number
of polls that keeps the total wait below the ceiling, and then stops
resolving, the watcher exits the loop with the paneGone reason on the next
poll, records no timeout prompt, and proceeds to the close step, which with
a valid queue and the vanished handle performs no action and raises
nothing — a normal terminal transition. -/
theorem C6_pane_gone_normal_exit (pre : List Creator.TickInput)
    (goneT nextT : Creator.TickInput) (rest : List Creator.TickInput) (queue : Bool)
    (hpre : ∀ t ∈ pre, t.marker = .ok false ∧ t.paneAfterSleep = true)
    (hlen : pre.length ≤ 3599)
    (hg : goneT.marker = .ok false) (hgp : goneT.paneAfterSleep = false)
    (hn : nextT.marker = .ok false) :
    Creator.wait_jira_submit queue true (pre ++ goneT :: nextT :: rest)
      = (some ⟨.ok .paneGone, [], false⟩, some (HipFileUtils.kill_pane_tab queue false))
  ∧ HipFileUtils.kill_pane_tab true false = .ok [] := by
  have hL := Creator.waitLoop_pane_vanishes goneT nextT rest hg hgp hn pre 0 hpre (by omega)
  exact ⟨by simp [Creator.wait_jira_submit, hL], rfl⟩

/-- C6 witness: the spec scenario — three successful polls, then the panel
is gone. -/
theorem C6_pane_gone_normal_exit_witness :
    Creator.wait_jira_submit true true
        (List.replicate 3 (⟨.ok false, true, true, true⟩ : Creator.TickInput)
          ++ (⟨.ok false, false, true, true⟩ : Creator.TickInput)
            :: (⟨.ok false, true, true, true⟩ : Creator.TickInput) :: [])
      = (some ⟨.ok .paneGone, [], false⟩, some (HipFileUtils.kill_pane_tab true false)) := by
  have h := C6_pane_gone_normal_exit (List.replicate 3 ⟨.ok false, true, true, true⟩)
      ⟨.ok false, false, true, true⟩ ⟨.ok false, true, true, true⟩ [] true
      (fun t ht => by rw [List.eq_of_mem_replicate ht]; exact ⟨rfl, rfl⟩)
      (by simp) rfl rfl rfl
  exact h.1

/-- C7 (amended): when removing an observed marker file fails — permission
error or the file being already gone — the OSError propagates: the watcher
loop terminates with that error, and the close step never runs (the claim
said the watcher logs, tolerates the failure and still closes the panel;
the code has no handler, see C7_remove_failure_cex). -/
theorem C7_remove_failure_propagates (e : PyErr) (ps pa pp : Bool)
    (rest : List Creator.TickInput) (st : Nat) (pane : Bool) :
    Creator.waitLoop (⟨.error e, ps, pa, pp⟩ :: rest) st pane = ⟨.error e, [], pane⟩
  ∧ (∀ (queue : Bool) (inputs : List Creator.TickInput) (eo : PyErr),
        (Creator.waitLoop inputs 0 true).result = .error eo →
        Creator.wait_jira_submit queue true inputs
          = (some (Creator.waitLoop inputs 0 true), none)) := by
  refine ⟨Creator.waitLoop_err e ps pa pp rest st pane, ?_⟩
  intro queue inputs eo h
  simp [Creator.wait_jira_submit, h]

/-- C7 witness: a failing removal on the first poll kills the watcher; the
close step is never reached. -/
theorem C7_remove_failure_propagates_witness :
    Creator.wait_jira_submit true true
        [⟨.error (.osError "cannot remove marker"), true, true, true⟩]
      = (some (Creator.waitLoop
          [⟨.error (.osError "cannot remove marker"), true, true, true⟩] 0 true), none) :=
  (C7_remove_failure_propagates (.osError "cannot remove marker") true true true [] 0 true).2
    true [⟨.error (.osError "cannot remove marker"), true, true, true⟩]
    (.osError "cannot remove marker") rfl

/-- C7 (counterexample): a marker that cannot be removed makes the detection
step raise OSError instead of treating the failure as success, and the
watcher then exits without any close step — refuting the claim that a
deletion failure is logged and the panel still closed. -/
theorem C7_remove_failure_cex :
    Creator.find_and_remove_tmp_file (fun _ => false)
        ["tmp_hou_jira_submit_pane_tab_JiraSubmitter_scene.hip"] "JiraSubmitter" "scene.hip"
      = .error (.osError "cannot remove tmp_hou_jira_submit_pane_tab_JiraSubmitter_scene.hip")
  ∧ Creator.wait_jira_submit true true
        [⟨.error (.osError "gone"), true, true, true⟩, ⟨.ok true, true, true, true⟩]
      = (some ⟨.error (.osError "gone"), [], true⟩, none) :=
  ⟨rfl, rfl⟩

namespace HoudiniTicket

/-- Appending with skip-empty equals filtering the empty values first and
appending all the rest, from any accumulator. -/
lemma foldl_append_filter (l : List String) :
    ∀ acc : String,
      l.foldl description_append acc
        = (l.filter (fun v => v ≠ "")).foldl (fun acc v => acc ++ "\n" ++ v) acc := by
  induction l with
  | nil => intro acc; rfl
  | cons x xs ih =>
    intro acc
    by_cases hx : x = ""
    · have h1 : description_append acc x = acc := by simp [description_append, hx]
      have h2 : (x :: xs).filter (fun v => v ≠ "") = xs.filter (fun v => v ≠ "") := by
        simp [List.filter_cons, hx]
      rw [List.foldl_cons, h1, h2, ih]
    · have h1 : description_append acc x = acc ++ "\n" ++ x := by simp [description_append, hx]
      have h2 : (x :: xs).filter (fun v => v ≠ "") = x :: xs.filter (fun v => v ≠ "") := by
        simp [List.filter_cons, hx]
      rw [List.foldl_cons, h1, h2, List.foldl_cons, ih]

/-- The nine sections the spec names form a sublist (same relative order) of
the twelve values the source iterates over. -/
lemma spec_order_sublist (a : AutoInfo) :
    List.Sublist (spec_claimed_section_order a) (autoInfoFields a) := by
  unfold spec_claimed_section_order autoInfoFields
  refine .cons₂ _ (.cons₂ _ (.cons₂ _ (.cons₂ _ (.cons₂ _ (.cons₂ _ (.cons₂ _ ?_))))))
  exact .cons _ (.cons _ (.cons₂ _ (.cons₂ _ (.cons _ .slnil))))

end HoudiniTicket

/-- C8: the assembled auto-description blob is the header followed by the
ordered concatenation of exactly the non-empty AutoInfo sections in
iteration order; the spec-named sections (location, shot, submitted item,
item type, item path, working-file path, application version, environment
tool listing, remote-package listing), with their empty entries omitted,
appear in the blob in exactly that relative order, and no empty section is
ever appended. -/
theorem C8_description_section_order (init : String) (a : HoudiniTicket.AutoInfo) :
    HoudiniTicket._build_final_description init a
      = ((HoudiniTicket.autoInfoFields a).filter (fun v => v ≠ "")).foldl
          (fun acc v => acc ++ "\n" ++ v)
          (init ++ "\n" ++ HoudiniTicket.dashes79 ++ "\nAUTO GENERATED INFO FOLLOWS"
            ++ "\n" ++ HoudiniTicket.dashes79)
  ∧ List.Sublist ((HoudiniTicket.spec_claimed_section_order a).filter (fun v => v ≠ ""))
      ((HoudiniTicket.autoInfoFields a).filter (fun v => v ≠ ""))
  ∧ ∀ v ∈ (HoudiniTicket.autoInfoFields a).filter (fun v => v ≠ ""), v ≠ "" := by
  refine ⟨?_, ?_, ?_⟩
  · unfold HoudiniTicket._build_final_description
    exact HoudiniTicket.foldl_append_filter _ _
  · exact List.Sublist.filter _ (HoudiniTicket.spec_order_sublist a)
  · intro v hv
    have := List.of_mem_filter hv
    simpa using this

namespace HoudiniTicket

/-- The per-line body never raises: the only exception inside it, the
KeyError of pwd.getpwnam, is caught by its except clause. -/
lemma process_line_exc_eq_ok (site : String) (known : String → Bool)
    (acc : List String) (pl : Option WatcherLine) :
    process_line_exc site known acc pl = .ok (process_line site known acc pl) := by
  rcases pl with _ | p
  · rfl
  · unfold process_line_exc process_line getpwnam_exc
    by_cases ha : admit_sites site p.sites = true
    · by_cases hk : known p.login = true
      · simp [ha, hk]
      · simp [ha, hk]
    · simp [ha]

/-- Processing a line never removes a watcher already collected. -/
lemma mem_process_line (site : String) (known : String → Bool)
    (acc : List String) (pl : Option WatcherLine) (x : String) (hx : x ∈ acc) :
    x ∈ process_line site known acc pl := by
  rcases pl with _ | p
  · exact hx
  · unfold process_line
    by_cases ha : admit_sites site p.sites = true
    · by_cases hk : known p.login = true
      · by_cases hm : p.login ∈ acc
        · simp [ha, hk, hm, hx]
        · simp only [ha, hk, hm, if_true, if_false]
          simp [List.mem_append, hx]
      · simp [ha, hk, hx]
    · simp [ha, hx]

/-- Processing a line preserves the no-duplicates property of the watcher
list (a login is appended only when not already present). -/
lemma process_line_nodup (site : String) (known : String → Bool)
    (acc : List String) (pl : Option WatcherLine) (h : acc.Nodup) :
    (process_line site known acc pl).Nodup := by
  rcases pl with _ | p
  · exact h
  · unfold process_line
    by_cases ha : admit_sites site p.sites = true
    · by_cases hk : known p.login = true
      · by_cases hm : p.login ∈ acc
        · simp [ha, hk, hm, h]
        · simp only [ha, hk, hm, if_true, if_false]
          simp [List.nodup_append, h, hm]
      · simp [ha, hk, h]
    · simp [ha, h]

/-- The scan only ever extends the collected watcher list. -/
lemma mem_foldl_watchers (site : String) (known : String → Bool)
    (lines : List (Option WatcherLine)) :
    ∀ (acc : List String) (x : String), x ∈ acc →
      x ∈ lines.foldl (process_line site known) acc := by
  induction lines with
  | nil => intro acc x hx; exact hx
  | cons l ls ih =>
    intro acc x hx
    rw [List.foldl_cons]
    exact ih _ _ (mem_process_line _ _ _ _ _ hx)

/-- The scan preserves the no-duplicates property. -/
lemma nodup_foldl_watchers (site : String) (known : String → Bool)
    (lines : List (Option WatcherLine)) :
    ∀ acc : List String, acc.Nodup → (lines.foldl (process_line site known) acc).Nodup := by
  induction lines with
  | nil => intro acc h; exact h
  | cons l ls ih =>
    intro acc h
    rw [List.foldl_cons]
    exact ih _ (process_line_nodup _ _ _ _ h)

/-- The whole scan never raises. -/
lemma search_exc_eq_ok (site : String) (known : String → Bool)
    (lines : List (Option WatcherLine)) :
    ∀ init : List String,
      _search_for_watchers_exc site known init lines
        = .ok (_search_for_watchers site known init lines) := by
  induction lines with
  | nil => intro init; rfl
  | cons l ls ih =>
    intro init
    unfold _search_for_watchers_exc _search_for_watchers
    rw [List.foldlM_cons, process_line_exc_eq_ok, List.foldl_cons]
    exact ih _

/-- A well-formed line whose site column admits the current site and whose
login is a known account puts that login into the final watcher list. -/
lemma login_mem_search (site : String) (known : String → Bool)
    (lines : List (Option WatcherLine)) :
    ∀ (init : List String) (p : WatcherLine), some p ∈ lines →
      admit_sites site p.sites = true → known p.login = true →
      p.login ∈ _search_for_watchers site known init lines := by
  induction lines with
  | nil => intro init p hp; simp at hp
  | cons l ls ih =>
    intro init p hp ha hk
    rcases List.mem_cons.mp hp with hp | hp
    · subst hp
      unfold _search_for_watchers
      rw [List.foldl_cons]
      apply mem_foldl_watchers
      unfold process_line
      by_cases hm : p.login ∈ init
      · simp [ha, hk, hm]
      · simp [ha, hk, hm]
    · unfold _search_for_watchers
      rw [List.foldl_cons]
      exact ih _ p hp ha hk

end HoudiniTicket

/-- C9: scanning a watcher-list file never raises (the scan over any line
sequence returns Ok); an unparsable line (regex search returned None)
contributes nothing; a line naming an unknown system account contributes
nothing (its KeyError is caught, at most printed); every other well-formed
line whose optional site-restriction column admits the current site puts its
login into the resulting watcher set; and the resulting set stays free of
duplicates. -/
theorem C9_watcher_scan_contract (site : String) (known : String → Bool)
    (init : List String) (lines : List (Option HoudiniTicket.WatcherLine))
    (hn : init.Nodup) :
    HoudiniTicket._search_for_watchers_exc site known init lines
      = .ok (HoudiniTicket._search_for_watchers site known init lines)
  ∧ (HoudiniTicket._search_for_watchers site known init lines).Nodup
  ∧ (∀ acc : List String, HoudiniTicket.process_line site known acc none = acc)
  ∧ (∀ (p : HoudiniTicket.WatcherLine) (acc : List String), known p.login = false →
        HoudiniTicket.process_line site known acc (some p) = acc)
  ∧ (∀ p : HoudiniTicket.WatcherLine, some p ∈ lines →
        HoudiniTicket.admit_sites site p.sites = true → known p.login = true →
        p.login ∈ HoudiniTicket._search_for_watchers site known init lines) := by
  refine ⟨HoudiniTicket.search_exc_eq_ok site known lines init,
    HoudiniTicket.nodup_foldl_watchers site known lines init hn,
    fun acc => rfl, ?_, ?_⟩
  · intro p acc hk
    unfold HoudiniTicket.process_line
    by_cases ha : HoudiniTicket.admit_sites site p.sites = true
    · simp [ha, hk]
    · simp [ha]
  · intro p hp ha hk
    exact HoudiniTicket.login_mem_search site known lines init p hp ha hk

/-- C9 witness: a scan over an unparsable line followed by a well-formed
unrestricted line collects that login. -/
theorem C9_watcher_scan_contract_witness :
    ([] : List String).Nodup
  ∧ "aru" ∈ HoudiniTicket._search_for_watchers "lon" (fun _ => true) []
      [none, some ⟨"aru", ""⟩] := by
  refine ⟨List.nodup_nil, ?_⟩
  exact (C9_watcher_scan_contract "lon" (fun _ => true) [] [none, some ⟨"aru", ""⟩]
      List.nodup_nil).2.2.2.2 ⟨"aru", ""⟩ (by simp) (by decide) rfl

namespace HouJiraReportDialog

/-- C2 (code bug): an rsync invocation whose hscript call reports output
raises hou.OperationFailed inside rsync_hip_file; the except clause there
catches only subprocess.CalledProcessError (which nothing in the try block
can raise), so — contrary to the fail-silently comments at every call
site — the exception propagates through transfer_hip into _createTicket,
where the submission aborts with the error and no issue is created
(no effects are recorded). -/
theorem C2_rsync_error_escapes :
    HipFileUtils.rsync_hip_file (fun _ => ("rsyncfail", "")) "bob" "vancouver"
        "/jobs/SHOW/shot/f.hip"
      = .error (.opFailed "rsync returned error: (rsyncfail, )")
  ∧ HipFileUtils.transfer_hip (fun _ => ("rsyncfail", "")) "bob" "london"
        "/jobs/SHOW/shot/f.hip"
      = .error (.opFailed "rsync returned error: (rsyncfail, )")
  ∧ (_createTicket
        { is_ui := false, pane_tab := none, save_hip_flag := true, toggle_checked := false,
          final_jira_description := "d", jira_server := "jira" }
        { title := "Crash", comment := "It crashed", reporter := "bob" }
        { hscript := fun _ => ("rsyncfail", ""), user := "bob", site_name := "london",
          save_result := (true, "/jobs/SHOW/shot/f.hip"), hip_env := "/jobs/SHOW/shot",
          re_sub := fun _ d => d, issue := some "PTSUP-123", hip_basename := "f.hip" }).result
      = .error (.opFailed "rsync returned error: (rsyncfail, )")
  ∧ (_createTicket
        { is_ui := false, pane_tab := none, save_hip_flag := true, toggle_checked := false,
          final_jira_description := "d", jira_server := "jira" }
        { title := "Crash", comment := "It crashed", reporter := "bob" }
        { hscript := fun _ => ("rsyncfail", ""), user := "bob", site_name := "london",
          save_result := (true, "/jobs/SHOW/shot/f.hip"), hip_env := "/jobs/SHOW/shot",
          re_sub := fun _ d => d, issue := some "PTSUP-123", hip_basename := "f.hip" }).effects
      = [] :=
  ⟨rfl, rfl, rfl, rfl⟩

/-- C3 (amended): on an empty or placeholder title or comment, _createTicket
aborts with a message identifying the offending field — the title check runs
first — creates no issue, and: outside UI mode it raises hou.OperationFailed
with that message and performs no effects (state unchanged, the user can
retry); in UI mode it displays the message and then REJECTS the dialog
(closing it and, when a pane tab is present, making the tab current and
spawning its kill thread), so the dialog state is not left unchanged — see
C3_empty_title_rejects_dialog_cex. -/
theorem C3_validation_abort (ctx : DialogCtx) (t : TicketState) (o : DialogOracles)
    (msg : String) (h : validation_message t = some msg) :
    ((_createTicket ctx t o).result
      = if ctx.is_ui then .ok none else .error (.opFailed msg))
  ∧ (∀ key : String, (_createTicket ctx t o).result ≠ .ok (some key))
  ∧ ((_createTicket ctx t o).effects
      = if ctx.is_ui then .displayMessage msg :: reject_effects ctx.is_ui ctx.pane_tab else [])
  ∧ ((t.title = "" ∨ t.title = DN_TICKET_TITLE_MESSAGE) →
      msg = "Please enter a valid issue summary")
  ∧ (¬(t.title = "" ∨ t.title = DN_TICKET_TITLE_MESSAGE) →
      msg = "Please enter a valid issue description") := by
  have hres : (_createTicket ctx t o).result
      = (if ctx.is_ui then Except.ok none else Except.error (PyErr.opFailed msg)) := by
    rcases hui : ctx.is_ui
    · simp [_createTicket, h, hui]
    · simp [_createTicket, h, hui]
  have heff : (_createTicket ctx t o).effects
      = (if ctx.is_ui then Effect.displayMessage msg :: reject_effects ctx.is_ui ctx.pane_tab
         else []) := by
    rcases hui : ctx.is_ui
    · simp [_createTicket, h, hui]
    · simp [_createTicket, h, hui]
  refine ⟨hres, ?_, heff, ?_, ?_⟩
  · intro key hk
    rw [hres] at hk
    rcases hui : ctx.is_ui
    · rw [hui] at hk
      simp at hk
    · rw [hui] at hk
      simp at hk
  · intro htitle
    unfold validation_message at h
    rw [if_pos htitle] at h
    injection h with h2
    exact h2.symm
  · intro hnot
    unfold validation_message at h
    rw [if_neg hnot] at h
    by_cases hc : t.comment = "" ∨ t.comment = DN_TICKET_DESCRIPTION_MESSAGE
    · rw [if_pos hc] at h
      injection h with h2
      exact h2.symm
    · rw [if_neg hc] at h
      exact Option.noConfusion h

/-- C3 witness: an empty title outside UI mode raises the summary-field
message and creates no issue. -/
theorem C3_validation_abort_witness :
    validation_message { title := "", comment := "a description", reporter := "bob" }
      = some "Please enter a valid issue summary"
  ∧ (_createTicket
      { is_ui := false, pane_tab := none, save_hip_flag := false, toggle_checked := false,
        final_jira_description := "", jira_server := "jira" }
      { title := "", comment := "a description", reporter := "bob" }
      { hscript := fun _ => ("", ""), user := "bob", site_name := "london",
        save_result := (false, ""), hip_env := "/jobs", re_sub := fun _ d => d,
        issue := none, hip_basename := "scene.hip" }).result
      = .error (.opFailed "Please enter a valid issue summary") := by
  refine ⟨rfl, ?_⟩
  have h := C3_validation_abort
      { is_ui := false, pane_tab := none, save_hip_flag := false, toggle_checked := false,
        final_jira_description := "", jira_server := "jira" }
      { title := "", comment := "a description", reporter := "bob" }
      { hscript := fun _ => ("", ""), user := "bob", site_name := "london",
        save_result := (false, ""), hip_env := "/jobs", re_sub := fun _ d => d,
        issue := none, hip_basename := "scene.hip" }
      "Please enter a valid issue summary" rfl
  simpa using h.1

/-- C3 (counterexample): in UI mode with a live pane tab, an empty title
makes _createTicket display the message and then close the dialog (and start
killing the parent pane tab) — the dialog state is not left unchanged for
the user to correct and retry, as the claim asserted; no issue is created. -/
theorem C3_empty_title_rejects_dialog_cex :
    (_createTicket
      { is_ui := true, pane_tab := some "JiraSubmitter", save_hip_flag := false,
        toggle_checked := false, final_jira_description := "", jira_server := "jira" }
      { title := "", comment := "a description", reporter := "bob" }
      { hscript := fun _ => ("", ""), user := "bob", site_name := "london",
        save_result := (false, ""), hip_env := "/jobs", re_sub := fun _ d => d,
        issue := none, hip_basename := "scene.hip" }).effects
      = [.displayMessage "Please enter a valid issue summary",
         .setCurrentTab "JiraSubmitter", .closeDialog, .spawnKillPane "JiraSubmitter"]
  ∧ (_createTicket
      { is_ui := true, pane_tab := some "JiraSubmitter", save_hip_flag := false,
        toggle_checked := false, final_jira_description := "", jira_server := "jira" }
      { title := "", comment := "a description", reporter := "bob" }
      { hscript := fun _ => ("", ""), user := "bob", site_name := "london",
        save_result := (false, ""), hip_env := "/jobs", re_sub := fun _ d => d,
        issue := none, hip_basename := "scene.hip" }).result
      = .ok none :=
  ⟨rfl, rfl⟩

end HouJiraReportDialog

/-- C10: save_hip always hands the session back with its current document
name equal to the validated original path — whether the timestamped save
succeeded, raised the caught hou.OperationFailed, or raised any other
exception — and only the returned (success, path) pair (or the propagated
exception) reports the fate of the backup. -/
theorem C10_save_hip_restores_name (valid_path save_file_path : String)
    (s : HipFileUtils.HipSession) :
    (∀ r : Except PyErr Unit,
        (HipFileUtils.save_hip valid_path save_file_path r s).2 = ⟨valid_path⟩)
  ∧ (HipFileUtils.save_hip valid_path save_file_path (.ok ()) s).1 = .ok (true, save_file_path)
  ∧ (∀ m, (HipFileUtils.save_hip valid_path save_file_path (.error (.opFailed m)) s).1
        = .ok (false, save_file_path))
  ∧ (∀ m, (HipFileUtils.save_hip valid_path save_file_path (.error (.osError m)) s).1
        = .error (.osError m))
  ∧ (HipFileUtils.save_hip valid_path save_file_path (.error .calledProcessError) s).1
        = .error .calledProcessError
  ∧ (HipFileUtils.save_hip valid_path save_file_path (.error .keyError) s).1
        = .error .keyError := by
  refine ⟨?_, rfl, fun m => rfl, fun m => rfl, rfl, rfl⟩
  intro r
  rcases r with _ | e
  · rfl
  · rcases e with m | _ | m | _
    all_goals rfl

end JiraSubmitter
